import Mathlib

/-!
# Verification of the single-host docker scaling controller

Shallow embedding of `assemblyline_core/scaler/controllers/docker_ctl.py`
(class `DockerController`) and proofs about its operations.

The docker SDK itself (`client.containers.list/run/kill/prune`,
`client.volumes.prune`, `client.info`) is external to the repository; it is
modelled here as an explicit `DockerState` holding the containers the daemon
knows about, together with trace counters (launch attempts, prune calls) and
the warning log.  Listing is modelled from the spec (section 3): the daemon
returns runtime-observed containers carrying any status string, optionally
filtered by the `component` label.  Failure of a `containers.run` call is
modelled by an explicit fault schedule consumed one entry per launch attempt.

Numeric quantities (`NCPU`, `MemTotal`, cpu quotas and periods, memory
limits) are modelled as rationals; per the docker engine API, `MemTotal`
and `HostConfig.Memory` are byte counts and `mem_limit='<n>m'` stores
n * 2^20 bytes.
-/

/-- A runtime-observed docker container: name, the `component` label value,
status string, and the `HostConfig` resource reservation fields. -/
structure Container where
  name : String
  component : String
  status : String
  cpuPeriod : ℚ
  cpuQuota : ℚ
  memory : ℚ
deriving DecidableEq

/-- The state of the docker daemon as seen by the controller, plus the
observable trace of the controller's interactions with it:
`launchFaults` is the schedule of failures for successive `containers.run`
calls (an exhausted or `false` entry means the launch succeeds),
`launchCount` counts `containers.run` attempts, `pruneCount` and
`volumePruneCount` count `containers.prune` / `volumes.prune` calls, and
`warnings` is the warning-level log. -/
structure DockerState where
  containers : List Container
  ncpu : ℚ
  memTotal : ℚ
  launchFaults : List Bool
  launchCount : Nat
  pruneCount : Nat
  volumePruneCount : Nat
  warnings : List String
deriving DecidableEq

/-- The `DockerConfig` fields of a service profile used by `_start`. -/
structure DockerConfig where
  image : String
  command : Option String
  cpu_cores : ℚ
  ram_mb : Nat
  network : List String
  environment : List (String × String)
deriving DecidableEq

/-- A service profile: a name and its container configuration. -/
structure ServiceProfile where
  name : String
  container_config : DockerConfig
deriving DecidableEq

/-- The controller's own state: name prefix, label map, overallocation
multipliers and the registered profiles (`self._profiles`, a dict keyed by
service name, modelled as an association list looked up front-to-back). -/
structure DockerController where
  prefixStr : String
  labels : List (String × String)
  cpu_overallocation : ℚ
  memory_overallocation : ℚ
  profiles : List (String × ServiceProfile)
deriving DecidableEq

/-- `self._reserved_cpu = 0.3`: CPU cores reserved for the host. -/
def reservedCpu : ℚ := 3 / 10

/-- `self._reserved_mem = 500`: memory reserved for the host. -/
def reservedMem : ℚ := 500

/-- `add_profile`: register/replace the profile stored under `profile.name`. -/
def add_profile (ctl : DockerController) (profile : ServiceProfile) : DockerController :=
  { ctl with profiles :=
      (profile.name, profile) :: ctl.profiles.filter (fun q => q.1 != profile.name) }

/-- Dict lookup `self._profiles[service_name]`, `none` when the key is
missing (Python raises `KeyError`). -/
def lookupProfile (ctl : DockerController) (service_name : String) : Option ServiceProfile :=
  (ctl.profiles.find? (fun q => q.1 == service_name)).map (fun q => q.2)

/-- `client.containers.list(all=True)`: every container the daemon knows. -/
def listAllContainers (s : DockerState) : List Container :=
  s.containers

/-- `client.containers.list()` with no filter.  Modelled from the spec:
the docker SDK is not part of this repository; spec section 3 treats the
listing as returning the runtime-observed containers, so the model returns
the daemon's container list. -/
def listContainers (s : DockerState) : List Container :=
  s.containers

/-- `client.containers.list(filters={'label': f'component={service_name}'})`:
the containers whose `component` label equals the service name. -/
def listByLabel (s : DockerState) (service_name : String) : List Container :=
  s.containers.filter (fun c => c.component == service_name)

/-- Status strings counted as live by `get_target`. -/
def isLiveStatus (st : String) : Bool :=
  st == "restarting" || st == "running"

/-- Status strings `get_target` explicitly ignores. -/
def isKnownNotLiveStatus (st : String) : Bool :=
  st == "created" || st == "removing" || st == "paused" || st == "exited" || st == "dead"

/-- The warning message logged for an unrecognized status string. -/
def unknownStatusWarning (st : String) : String :=
  "Unknown docker status string: " ++ st

/-- The counting loop of `get_target`: walk the listed containers keeping a
running count and the warning messages emitted for unknown statuses. -/
def getTargetLoop : List Container → Nat → List String → Nat × List String
  | [], n, ws => (n, ws)
  | c :: rest, n, ws =>
    if isLiveStatus c.status then
      getTargetLoop rest (n + 1) ws
    else if isKnownNotLiveStatus c.status then
      getTargetLoop rest n ws
    else
      getTargetLoop rest n (ws ++ [unknownStatusWarning c.status])

/-- `get_target`: count the live instances of a service; warnings for
unknown statuses are appended to the log. -/
def get_target (s : DockerState) (service_name : String) : Nat × DockerState :=
  let r := getTargetLoop (listByLabel s service_name) 0 []
  (r.1, { s with warnings := s.warnings ++ r.2 })

/-- The count returned by `get_target`. -/
def getTargetCount (s : DockerState) (service_name : String) : Nat :=
  (get_target s service_name).1

/-- The candidate container name for a given index:
`f'{service_name}_{index}'`, prepended with `prefix + '_'` when the prefix
is nonempty (Python truthiness of `self._prefix`). -/
def containerNameAt (pfx service_name : String) (index : Nat) : String :=
  let base := service_name ++ "_" ++ Nat.repr index
  if pfx = "" then base else pfx ++ "_" ++ base

/-- Decode the decimal string written by `Nat.repr` back into a number
(left inverse used to prove the naming scheme collision-free). -/
def decodeDecimal (cs : List Char) : Nat :=
  cs.foldl (fun a c => a * 10 + (c.toNat - 48)) 0

theorem digitChar_toNat : ∀ n < 10, (Nat.digitChar n).toNat = 48 + n := by decide

theorem toDigitsCore_append (fuel : Nat) : ∀ (n : Nat) (ds : List Char),
    Nat.toDigitsCore 10 fuel n ds = Nat.toDigitsCore 10 fuel n [] ++ ds := by
  induction fuel with
  | zero => intro n ds; simp [Nat.toDigitsCore]
  | succ fuel ih =>
    intro n ds
    simp only [Nat.toDigitsCore]
    by_cases h : n / 10 = 0
    · simp [h]
    · simp only [h, if_false]
      rw [ih (n / 10) (Nat.digitChar (n % 10) :: ds), ih (n / 10) [Nat.digitChar (n % 10)]]
      simp

theorem decodeDecimal_toDigitsCore (fuel : Nat) : ∀ n, n < 10 ^ fuel →
    decodeDecimal (Nat.toDigitsCore 10 fuel n []) = n := by
  induction fuel with
  | zero =>
    intro n hn
    interval_cases n
    simp [Nat.toDigitsCore, decodeDecimal]
  | succ fuel ih =>
    intro n hn
    simp only [Nat.toDigitsCore]
    by_cases h : n / 10 = 0
    · have hn10 : n < 10 := (Nat.div_eq_zero_iff (by norm_num : (0:Nat) < 10)).mp h
      simp only [h, if_true]
      simp [decodeDecimal, digitChar_toNat (n % 10) (Nat.mod_lt n (by norm_num))]
      omega
    · simp only [h, if_false]
      rw [toDigitsCore_append]
      have hdiv : n / 10 < 10 ^ fuel := by
        rw [Nat.div_lt_iff_lt_mul (by norm_num : 0 < 10)]
        calc n < 10 ^ (fuel + 1) := hn
          _ = 10 ^ fuel * 10 := by ring
      have := ih (n / 10) hdiv
      simp only [decodeDecimal] at this ⊢
      rw [List.foldl_append, this]
      have h10 : n % 10 < 10 := Nat.mod_lt n (by norm_num)
      simp [digitChar_toNat (n % 10) h10]
      omega

/-- Decoding is a left inverse of `Nat.repr`. -/
theorem decodeDecimal_repr (n : Nat) : decodeDecimal (Nat.repr n).data = n := by
  have hlt : n < 10 ^ (n + 1) := by
    calc n < 10 ^ n := Nat.lt_pow_self (by norm_num) n
      _ ≤ 10 ^ (n + 1) := Nat.pow_le_pow_right (by norm_num) (Nat.le_succ n)
  have h : (Nat.repr n).data = Nat.toDigitsCore 10 (n + 1) n [] := rfl
  rw [h]
  exact decodeDecimal_toDigitsCore (n + 1) n hlt

/-- Distinct numbers render as distinct decimal strings. -/
theorem natRepr_injective : Function.Injective Nat.repr := by
  intro a b h
  have h2 := congrArg (fun s => decodeDecimal s.data) h
  simpa [decodeDecimal_repr] using h2

theorem append_right_inj_str (a : String) {x y : String} (h : a ++ x = a ++ y) : x = y := by
  have hd := congrArg String.data h
  simp only [String.data_append] at hd
  have h2 := List.append_cancel_left hd
  cases x; cases y; exact congrArg String.mk h2

/-- Distinct indices give distinct candidate names for the same service. -/
theorem containerNameAt_injective (pfx service_name : String) :
    Function.Injective (containerNameAt pfx service_name) := by
  intro i j h
  unfold containerNameAt at h
  by_cases hp : pfx = ""
  · simp only [hp, if_pos rfl] at h
    exact natRepr_injective (append_right_inj_str (service_name ++ "_") h)
  · simp only [hp, if_false] at h
    have h2 := append_right_inj_str (pfx ++ "_") h
    exact natRepr_injective (append_right_inj_str (service_name ++ "_") h2)

/-- There is always an index whose candidate name is unused: candidate
names are pairwise distinct, and the used-name set is finite. -/
theorem exists_free_index (used : List String) (pfx service_name : String) :
    ∃ index, containerNameAt pfx service_name index ∉ used := by
  by_contra hall
  push_neg at hall
  have hmap : ∀ i ∈ Finset.range (used.length + 1),
      containerNameAt pfx service_name i ∈ used.toFinset := by
    intro i _
    exact List.mem_toFinset.mpr (hall i)
  have hinj : Set.InjOn (containerNameAt pfx service_name) (Finset.range (used.length + 1)) :=
    fun a _ b _ h => containerNameAt_injective pfx service_name h
  have hcard := Finset.card_le_card_of_injOn _ hmap hinj
  rw [Finset.card_range] at hcard
  have := used.toFinset_card_le
  omega

/-- `_name_container`: the source's while-loop probes indices 0, 1, 2, ...
and returns the first candidate name not in the used-name set; that is, the
candidate name at the least free index. -/
def name_container (used : List String) (pfx service_name : String) : String :=
  containerNameAt pfx service_name (Nat.find (exists_free_index used pfx service_name))

/-- The used-name set `_name_container` collects: the names of every
container on the host (`containers.list(all=True)`). -/
def usedNames (s : DockerState) : List String :=
  (listAllContainers s).map (fun c => c.name)

/-- An error raised inside the try-block of `set_target`. -/
inductive DockerError where
  | missingProfile (service_name : String)
  | apiError (message : String)
deriving DecidableEq

/-- `str(error)` for the modelled errors (`KeyError` renders its key). -/
def errString : DockerError → String
  | .missingProfile service_name => "KeyError: " ++ service_name
  | .apiError message => message

/-- The container record created by a successful `containers.run` call in
`_start`: labelled with the service, freshly running, cpu expressed as a
period/quota pair (period 100000, quota `int(100000*cpu_cores)`), memory
limit `f'{ram_mb}m'` stored by the engine as `ram_mb * 2^20` bytes. -/
def newContainer (cname service_name : String) (cfg : DockerConfig) : Container :=
  { name := cname
    component := service_name
    status := "running"
    cpuPeriod := 100000
    cpuQuota := (⌊(100000 : ℚ) * cfg.cpu_cores⌋ : ℚ)
    memory := (cfg.ram_mb : ℚ) * 1048576 }

/-- `_start`: resolve a free container name, look up the registered profile
(Python raises `KeyError` when it is missing, before `containers.run` is
called), then attempt the launch; a launch attempt consumes one entry of
the fault schedule and either raises a runtime error or appends the new
container. -/
def _start (ctl : DockerController) (service_name : String) (s : DockerState) :
    Except DockerError Unit × DockerState :=
  let cname := name_container (usedNames s) ctl.prefixStr service_name
  match lookupProfile ctl service_name with
  | none => (.error (.missingProfile service_name), s)
  | some prof =>
    if s.launchFaults.headD false then
      (.error (.apiError "docker APIError"),
        { s with launchFaults := s.launchFaults.tail, launchCount := s.launchCount + 1 })
    else
      (.ok (),
        { s with
          containers := s.containers ++ [newContainer cname service_name prof.container_config]
          launchFaults := s.launchFaults.tail
          launchCount := s.launchCount + 1 })

/-- The launch loop of `set_target`: `for _ in range(delta): self._start(...)`,
stopping at the first raised launch. -/
def launchMany (ctl : DockerController) (service_name : String) :
    Nat → DockerState → Except DockerError Unit × DockerState
  | 0, s => (.ok (), s)
  | n + 1, s =>
    match _start ctl service_name s with
    | (.ok _, s1) => launchMany ctl service_name n s1
    | (.error e, s1) => (.error e, s1)

/-- `container.kill()` applied to the selected victims: a killed container
stops (status becomes exited); the daemon keeps the record until pruned. -/
def killByNames (victims : List String) (s : DockerState) : DockerState :=
  { s with containers :=
      s.containers.map (fun c => if c.name ∈ victims then { c with status := "exited" } else c) }

/-- The live containers of a service as selected by the kill branch of
`set_target`: the label-filtered listing restricted to live statuses. -/
def liveByLabel (s : DockerState) (service_name : String) : List Container :=
  (listByLabel s service_name).filter (fun c => isLiveStatus c.status)

/-- Statuses removed by `containers.prune()` (stopped containers). -/
def isStoppedStatus (st : String) : Bool :=
  st == "exited" || st == "created"

/-- `client.containers.prune()`: drop stopped containers, count the call. -/
def pruneContainers (s : DockerState) : DockerState :=
  { s with
    containers := s.containers.filter (fun c => !isStoppedStatus c.status)
    pruneCount := s.pruneCount + 1 }

/-- `client.volumes.prune()`: volume cleanup, observable only as a call. -/
def pruneVolumes (s : DockerState) : DockerState :=
  { s with volumePruneCount := s.volumePruneCount + 1 }

/-- The body of the `try` block of `set_target`: count live instances,
kill the first `-delta` live containers when `delta < 0`, launch `delta`
instances when `delta > 0`, then prune containers and volumes.  An error
escaping any step skips the rest of the block. -/
def set_target_try (ctl : DockerController) (service_name : String) (target : Int)
    (s : DockerState) : Except DockerError Unit × DockerState :=
  let r := get_target s service_name
  let delta : Int := target - (r.1 : Int)
  let s2 :=
    if delta < 0 then
      killByNames (((liveByLabel r.2 service_name).take (-delta).toNat).map (fun c => c.name)) r.2
    else r.2
  match (if 0 < delta then launchMany ctl service_name delta.toNat s2 else (.ok (), s2)) with
  | (.ok _, s3) => (.ok (), pruneVolumes (pruneContainers s3))
  | (.error e, s3) => (.error e, s3)

/-- `ServiceControlError(message, service_name)`: the only failure type
`set_target` surfaces. -/
structure ServiceControlError where
  message : String
  service_name : String
deriving DecidableEq

/-- `set_target`: run the try-block; any error is caught and re-raised as
`ServiceControlError(str(error), service_name)`. -/
def set_target (ctl : DockerController) (service_name : String) (target : Int)
    (s : DockerState) : Except ServiceControlError Unit × DockerState :=
  match set_target_try ctl service_name target s with
  | (.ok _, s1) => (.ok (), s1)
  | (.error e, s1) => (.error ⟨errString e, service_name⟩, s1)

/-- `free_cpu`: start from `NCPU * cpu_overallocation - reserved`, then for
every listed container with a truthy `CpuPeriod` subtract `CpuQuota/CpuPeriod`. -/
def free_cpu (ctl : DockerController) (s : DockerState) : ℚ :=
  (listContainers s).foldl
    (fun cpu c => if c.cpuPeriod ≠ 0 then cpu - c.cpuQuota / c.cpuPeriod else cpu)
    (s.ncpu * ctl.cpu_overallocation - reservedCpu)

/-- `free_memory`: start from `MemTotal/1024 * memory_overallocation -
reserved`, then subtract `Memory/1024` for every listed container. -/
def free_memory (ctl : DockerController) (s : DockerState) : ℚ :=
  (listContainers s).foldl
    (fun mem c => mem - c.memory / 1024)
    (s.memTotal / 1024 * ctl.memory_overallocation - reservedMem)

theorem isLiveStatus_eq_decide (st : String) :
    isLiveStatus st = decide (st = "running" ∨ st = "restarting") := by
  refine Bool.eq_iff_iff.mpr ?_
  simp [isLiveStatus, or_comm]

theorem unknown_eq_decide (st : String) :
    (!isLiveStatus st && !isKnownNotLiveStatus st) = decide (st ∉
      (["running", "restarting", "created", "removing", "paused", "exited", "dead"] :
        List String)) := by
  refine Bool.eq_iff_iff.mpr ?_
  simp [isLiveStatus, isKnownNotLiveStatus]
  tauto

/-- Closed form of the `get_target` counting loop: the accumulated count
grows by the number of live-status containers, and one warning is appended
per container whose status is in neither known set. -/
theorem getTargetLoop_spec (cs : List Container) : ∀ (n : Nat) (ws : List String),
    getTargetLoop cs n ws =
      (n + cs.countP (fun c => isLiveStatus c.status),
       ws ++ (cs.filter
          (fun c => !isLiveStatus c.status && !isKnownNotLiveStatus c.status)).map
          (fun c => unknownStatusWarning c.status)) := by
  induction cs with
  | nil => intro n ws; simp [getTargetLoop]
  | cons c rest ih =>
    intro n ws
    simp only [getTargetLoop]
    by_cases h1 : isLiveStatus c.status
    · rw [if_pos h1, ih]
      simp [h1, List.countP_cons]
      omega
    · rw [if_neg h1]
      by_cases h2 : isKnownNotLiveStatus c.status
      · rw [if_pos h2, ih]
        simp [h1, h2, List.countP_cons]
      · rw [if_neg h2, ih]
        simp [h1, h2, List.countP_cons]

/-- C3: `get_target` returns exactly the number of labelled containers
whose status is running or restarting; the statuses created, removing,
paused, exited and dead are not counted; any other status string is not
counted and does not abort the call (the function is total and leaves the
container list untouched), but appends one warning-level log message. -/
theorem getTarget_status_classification (s : DockerState) (service_name : String) :
    (get_target s service_name).1 =
      ((listByLabel s service_name).filter
        (fun c => decide (c.status = "running" ∨ c.status = "restarting"))).length ∧
    (get_target s service_name).2.containers = s.containers ∧
    (get_target s service_name).2.warnings = s.warnings ++
      ((listByLabel s service_name).filter
        (fun c => decide (c.status ∉
          (["running", "restarting", "created", "removing", "paused", "exited", "dead"] :
            List String)))).map (fun c => unknownStatusWarning c.status) := by
  unfold get_target
  rw [getTargetLoop_spec]
  refine ⟨?_, rfl, ?_⟩
  · simp only [List.countP_eq_length_filter, Nat.zero_add]
    congr 1
    apply List.filter_congr
    intro c _
    exact isLiveStatus_eq_decide c.status
  · simp only [List.nil_append]
    congr 2
    apply List.filter_congr
    intro c _
    exact unknown_eq_decide c.status

/-- C5: `_name_container` returns a candidate name `[prefix_]service_index`
that is not among the used names, and among all free candidates it picks
the one with the least index; on the examples, used names svc_0 and svc_1
give svc_2, and used names svc_0 and svc_2 give svc_1. -/
theorem nameContainer_lowest_free_index (used : List String) (pfx service_name : String) :
    (name_container used pfx service_name ∉ used ∧
      ∃ index, name_container used pfx service_name = containerNameAt pfx service_name index ∧
        ∀ j < index, containerNameAt pfx service_name j ∈ used) ∧
    name_container ["svc_0", "svc_1"] "" "svc" = "svc_2" ∧
    name_container ["svc_0", "svc_2"] "" "svc" = "svc_1" := by
  refine ⟨⟨Nat.find_spec (exists_free_index used pfx service_name),
    Nat.find (exists_free_index used pfx service_name), rfl, ?_⟩, ?_, ?_⟩
  · intro j hj
    have := Nat.find_min (exists_free_index used pfx service_name) hj
    simpa using this
  · show containerNameAt "" "svc" (Nat.find (exists_free_index ["svc_0", "svc_1"] "" "svc"))
      = "svc_2"
    have hfind : Nat.find (exists_free_index ["svc_0", "svc_1"] "" "svc") = 2 := by
      rw [Nat.find_eq_iff]
      decide
    rw [hfind]
    decide
  · show containerNameAt "" "svc" (Nat.find (exists_free_index ["svc_0", "svc_2"] "" "svc"))
      = "svc_1"
    have hfind : Nat.find (exists_free_index ["svc_0", "svc_2"] "" "svc") = 1 := by
      rw [Nat.find_eq_iff]
      decide
    rw [hfind]
    decide

/-- Per-container CPU reservation as accounted by `free_cpu`: quota/period,
or 0 when no CPU period is set. -/
def containerCpuReservation (c : Container) : ℚ :=
  if c.cpuPeriod ≠ 0 then c.cpuQuota / c.cpuPeriod else 0

/-- The claim's CPU formula, written from the spec's words: host CPU count
times the overallocation factor, minus the fixed 0.3-core reservation,
minus the sum of the listed containers' quota/period ratios. -/
def freeCpuSpec (ctl : DockerController) (s : DockerState) : ℚ :=
  s.ncpu * ctl.cpu_overallocation - 3 / 10 -
    ((listContainers s).map containerCpuReservation).sum

theorem foldl_sub_eq_sub_sum (f : Container → ℚ) (l : List Container) : ∀ init : ℚ,
    l.foldl (fun a c => a - f c) init = init - (l.map f).sum := by
  induction l with
  | nil => intro init; simp
  | cons c rest ih =>
    intro init
    simp only [List.foldl_cons, List.map_cons, List.sum_cons, ih]
    ring

theorem free_cpu_step (cpu : ℚ) (c : Container) :
    (if c.cpuPeriod ≠ 0 then cpu - c.cpuQuota / c.cpuPeriod else cpu) =
      cpu - containerCpuReservation c := by
  unfold containerCpuReservation
  split
  · rfl
  · simp

/-- C9: `free_cpu` equals host CPU count times the CPU overallocation
factor, minus the fixed 0.3-core host reservation, minus the sum over the
listed containers of CpuQuota/CpuPeriod where a container with no CPU
period contributes 0; on the spec's example (8 CPUs, overallocation 2, two
containers each reserving 1.5 cores) it returns 12.7. -/
theorem freeCpu_accounting :
    (∀ (ctl : DockerController) (s : DockerState), free_cpu ctl s = freeCpuSpec ctl s) ∧
    (∀ c : Container, c.cpuPeriod = 0 → containerCpuReservation c = 0) ∧
    free_cpu ⟨"", [], 2, 1, []⟩
      ⟨[⟨"a_0", "svc", "running", 100000, 150000, 0⟩,
        ⟨"a_1", "svc", "running", 100000, 150000, 0⟩], 8, 0, [], 0, 0, 0, []⟩ = 127 / 10 := by
  refine ⟨?_, ?_, ?_⟩
  · intro ctl s
    unfold free_cpu freeCpuSpec reservedCpu
    rw [show (fun (cpu : ℚ) (c : Container) =>
        if c.cpuPeriod ≠ 0 then cpu - c.cpuQuota / c.cpuPeriod else cpu) =
        (fun (cpu : ℚ) c => cpu - containerCpuReservation c) from
      funext fun cpu => funext fun c => free_cpu_step cpu c]
    rw [foldl_sub_eq_sub_sum]
  · intro c h
    unfold containerCpuReservation
    simp [h]
  · norm_num [free_cpu, listContainers, reservedCpu, List.foldl]

/-- C8: what `free_memory` actually computes, and its value on a failing
input for the claim.  In general the code returns
`MemTotal/1024 * factor - 500 - sum(Memory/1024)`; since the docker engine
reports `MemTotal` and `HostConfig.Memory` in bytes, dividing by 1024
yields KiB, not the MiB the claim asserts.  On a 1 GiB host (MemTotal =
2^30 bytes, overallocation 1) with one container launched from a profile
with `ram_mb = 1`, the code returns 1048576 - 500 - 1024 = 1047052,
whereas the claimed MiB accounting requires 1024 - 500 - 1 = 523. -/
theorem freeMemory_kib_not_mib :
    (∀ (ctl : DockerController) (s : DockerState),
      free_memory ctl s = s.memTotal / 1024 * ctl.memory_overallocation - 500 -
        ((listContainers s).map (fun c => c.memory / 1024)).sum) ∧
    free_memory ⟨"", [], 1, 1, []⟩
      ⟨[newContainer "x_0" "x" ⟨"img", none, 1, 1, ["net"], []⟩],
        0, 1073741824, [], 0, 0, 0, []⟩ = 1047052 ∧
    ¬ free_memory ⟨"", [], 1, 1, []⟩
      ⟨[newContainer "x_0" "x" ⟨"img", none, 1, 1, ["net"], []⟩],
        0, 1073741824, [], 0, 0, 0, []⟩ = 523 := by
  refine ⟨?_, ?_, ?_⟩
  · intro ctl s
    unfold free_memory reservedMem
    rw [foldl_sub_eq_sub_sum (fun c => c.memory / 1024)]
  · norm_num [free_memory, listContainers, reservedMem, newContainer, List.foldl]
  · norm_num [free_memory, listContainers, reservedMem, newContainer, List.foldl]

theorem get_target_snd_fields (s : DockerState) (service_name : String) :
    (get_target s service_name).2.containers = s.containers ∧
    (get_target s service_name).2.launchFaults = s.launchFaults ∧
    (get_target s service_name).2.launchCount = s.launchCount ∧
    (get_target s service_name).2.pruneCount = s.pruneCount ∧
    (get_target s service_name).2.volumePruneCount = s.volumePruneCount := by
  refine ⟨rfl, rfl, rfl, rfl, rfl⟩

theorem start_ok (ctl : DockerController) (service_name : String) (s : DockerState)
    (prof : ServiceProfile) (hprof : lookupProfile ctl service_name = some prof)
    (hfault : s.launchFaults.headD false = false) :
    _start ctl service_name s = (.ok (),
      { s with
        containers := s.containers ++
          [newContainer (name_container (usedNames s) ctl.prefixStr service_name)
            service_name prof.container_config]
        launchFaults := s.launchFaults.tail
        launchCount := s.launchCount + 1 }) := by
  unfold _start
  rw [hprof, hfault]
  simp

theorem start_fault (ctl : DockerController) (service_name : String) (s : DockerState)
    (prof : ServiceProfile) (hprof : lookupProfile ctl service_name = some prof)
    (hfault : s.launchFaults.headD false = true) :
    _start ctl service_name s = (.error (.apiError "docker APIError"),
      { s with launchFaults := s.launchFaults.tail, launchCount := s.launchCount + 1 }) := by
  unfold _start
  rw [hprof, hfault]
  simp

theorem faultFree_head_tail {l : List Bool} {n : Nat}
    (h : ∀ b ∈ l.take (n + 1), b = false) :
    l.headD false = false ∧ ∀ b ∈ l.tail.take n, b = false := by
  cases l with
  | nil => simp
  | cons a t =>
    refine ⟨h a (by simp), ?_⟩
    intro b hb
    simp only [List.tail_cons] at hb
    exact h b (by rw [List.take_succ_cons]; exact List.mem_cons_of_mem a hb)

theorem drop_tail_eq (l : List Bool) (n : Nat) : l.tail.drop n = l.drop (n + 1) := by
  cases l <;> simp

theorem launchMany_ok (ctl : DockerController) (service_name : String)
    (prof : ServiceProfile) (hprof : lookupProfile ctl service_name = some prof) :
    ∀ (n : Nat) (s : DockerState), (∀ b ∈ s.launchFaults.take n, b = false) →
    ∃ new : List Container,
      launchMany ctl service_name n s = (.ok (),
        { s with
          containers := s.containers ++ new
          launchFaults := s.launchFaults.drop n
          launchCount := s.launchCount + n }) ∧
      new.length = n ∧ ∀ c ∈ new, c.status = "running" ∧ c.component = service_name := by
  intro n
  induction n with
  | zero =>
    intro s _
    refine ⟨[], ?_, rfl, by simp⟩
    simp [launchMany]
  | succ n ih =>
    intro s h
    obtain ⟨hhead, htail⟩ := faultFree_head_tail h
    obtain ⟨new, heq, hlen, hprops⟩ := ih
      { s with
        containers := s.containers ++
          [newContainer (name_container (usedNames s) ctl.prefixStr service_name)
            service_name prof.container_config]
        launchFaults := s.launchFaults.tail
        launchCount := s.launchCount + 1 } htail
    refine ⟨newContainer (name_container (usedNames s) ctl.prefixStr service_name)
      service_name prof.container_config :: new, ?_, by simp [hlen], ?_⟩
    · have hstep : launchMany ctl service_name (n + 1) s =
          launchMany ctl service_name n
            { s with
              containers := s.containers ++
                [newContainer (name_container (usedNames s) ctl.prefixStr service_name)
                  service_name prof.container_config]
              launchFaults := s.launchFaults.tail
              launchCount := s.launchCount + 1 } := by
        rw [launchMany, start_ok ctl service_name s prof hprof hhead]
      rw [hstep, heq]
      simp only [Prod.mk.injEq, DockerState.mk.injEq, List.append_assoc, List.singleton_append,
        drop_tail_eq, true_and, and_true, eq_self_iff_true]
      omega
    · intro c hc
      rcases List.mem_cons.mp hc with h1 | h1
      · subst h1
        exact ⟨rfl, rfl⟩
      · exact hprops c h1

theorem getD_tail_eq (l : List Bool) (n : Nat) : l.tail.getD n false = l.getD (n + 1) false := by
  cases l <;> simp [List.getD]

theorem launchMany_fault (ctl : DockerController) (service_name : String)
    (prof : ServiceProfile) (hprof : lookupProfile ctl service_name = some prof) :
    ∀ (jf n : Nat) (s : DockerState), jf < n →
      (∀ b ∈ s.launchFaults.take jf, b = false) →
      s.launchFaults.getD jf false = true →
    ∃ new : List Container,
      launchMany ctl service_name n s = (.error (.apiError "docker APIError"),
        { s with
          containers := s.containers ++ new
          launchFaults := s.launchFaults.drop (jf + 1)
          launchCount := s.launchCount + (jf + 1) }) ∧
      new.length = jf ∧ ∀ c ∈ new, c.status = "running" ∧ c.component = service_name := by
  intro jf
  induction jf with
  | zero =>
    intro n s hn hfree hget
    obtain ⟨m, rfl⟩ : ∃ m, n = m + 1 := ⟨n - 1, by omega⟩
    have hhead : s.launchFaults.headD false = true := by
      cases hl : s.launchFaults with
      | nil => rw [hl] at hget; simp [List.getD] at hget
      | cons a t => rw [hl] at hget; simpa [List.getD] using hget
    refine ⟨[], ?_, rfl, by simp⟩
    have hstep : launchMany ctl service_name (m + 1) s =
        (.error (.apiError "docker APIError"),
          { s with launchFaults := s.launchFaults.tail, launchCount := s.launchCount + 1 }) := by
      rw [launchMany, start_fault ctl service_name s prof hprof hhead]
    rw [hstep]
    simp only [Prod.mk.injEq, DockerState.mk.injEq, List.append_nil, Nat.zero_add,
      List.drop_one, true_and, and_true, eq_self_iff_true]
  | succ jf ih =>
    intro n s hn hfree hget
    obtain ⟨m, rfl⟩ : ∃ m, n = m + 1 := ⟨n - 1, by omega⟩
    obtain ⟨hhead, htail⟩ := faultFree_head_tail hfree
    have hget2 : s.launchFaults.tail.getD jf false = true := by
      rw [getD_tail_eq]; exact hget
    obtain ⟨new, heq, hlen, hprops⟩ := ih m
      { s with
        containers := s.containers ++
          [newContainer (name_container (usedNames s) ctl.prefixStr service_name)
            service_name prof.container_config]
        launchFaults := s.launchFaults.tail
        launchCount := s.launchCount + 1 } (by omega) htail hget2
    refine ⟨newContainer (name_container (usedNames s) ctl.prefixStr service_name)
      service_name prof.container_config :: new, ?_, by simp [hlen], ?_⟩
    · have hstep : launchMany ctl service_name (m + 1) s =
          launchMany ctl service_name m
            { s with
              containers := s.containers ++
                [newContainer (name_container (usedNames s) ctl.prefixStr service_name)
                  service_name prof.container_config]
              launchFaults := s.launchFaults.tail
              launchCount := s.launchCount + 1 } := by
        rw [launchMany, start_ok ctl service_name s prof hprof hhead]
      rw [hstep, heq]
      simp only [Prod.mk.injEq, DockerState.mk.injEq, List.append_assoc, List.singleton_append,
        drop_tail_eq, true_and, and_true, eq_self_iff_true]
      omega
    · intro c hc
      rcases List.mem_cons.mp hc with h1 | h1
      · subst h1
        exact ⟨rfl, rfl⟩
      · exact hprops c h1

theorem live_not_stopped {st : String} (h : isLiveStatus st = true) :
    isStoppedStatus st = false := by
  have h2 := isLiveStatus_eq_decide st
  rw [h] at h2
  have h3 : st = "running" ∨ st = "restarting" := of_decide_eq_true h2.symm
  rcases h3 with rfl | rfl <;> rfl

theorem prune_fields (s : DockerState) :
    (pruneVolumes (pruneContainers s)).containers =
      s.containers.filter (fun c => !isStoppedStatus c.status) ∧
    (pruneVolumes (pruneContainers s)).launchCount = s.launchCount ∧
    (pruneVolumes (pruneContainers s)).launchFaults = s.launchFaults ∧
    (pruneVolumes (pruneContainers s)).pruneCount = s.pruneCount + 1 ∧
    (pruneVolumes (pruneContainers s)).volumePruneCount = s.volumePruneCount + 1 ∧
    (pruneVolumes (pruneContainers s)).warnings = s.warnings :=
  ⟨rfl, rfl, rfl, rfl, rfl, rfl⟩

/-- C1: for a registered service with L live instances and any target ≥ L,
`set_target` attempts exactly target - L sequential launches and kills no
live container (in particular target = L gives zero launches and zero
terminations, with every live container surviving); and when the fault
schedule makes the (k+1)-st launch raise (k prior launches succeed), the k
instances launched before it remain, the (k+1)-st attempt is the last, no
rollback happens (no prune either), and the call surfaces a
`ServiceControlError` naming the service. -/
theorem setTarget_scale_up (ctl : DockerController) (service_name : String) (target : Int)
    (s : DockerState) (prof : ServiceProfile)
    (hprof : lookupProfile ctl service_name = some prof)
    (hL : (getTargetCount s service_name : Int) ≤ target) :
    ((∀ b ∈ s.launchFaults.take (target - (getTargetCount s service_name : Int)).toNat,
        b = false) →
      ∃ s1 new, set_target ctl service_name target s = (.ok (), s1) ∧
        new.length = (target - (getTargetCount s service_name : Int)).toNat ∧
        s1.launchCount = s.launchCount + (target - (getTargetCount s service_name : Int)).toNat ∧
        (∀ c ∈ new, c.status = "running" ∧ c.component = service_name) ∧
        s1.containers = (s.containers ++ new).filter (fun c => !isStoppedStatus c.status) ∧
        (∀ c ∈ s.containers, isLiveStatus c.status = true → c ∈ s1.containers)) ∧
    (∀ jf : Nat, jf < (target - (getTargetCount s service_name : Int)).toNat →
      (∀ b ∈ s.launchFaults.take jf, b = false) →
      s.launchFaults.getD jf false = true →
      ∃ s1 new, set_target ctl service_name target s =
          (.error ⟨"docker APIError", service_name⟩, s1) ∧
        new.length = jf ∧
        s1.launchCount = s.launchCount + (jf + 1) ∧
        (∀ c ∈ new, c.status = "running" ∧ c.component = service_name) ∧
        s1.containers = s.containers ++ new ∧
        s1.pruneCount = s.pruneCount ∧
        (∀ c ∈ s.containers, c ∈ s1.containers)) := by
  obtain ⟨hc, hf, hlc, hpc, hvc⟩ := get_target_snd_fields s service_name
  have hnotneg : ¬ (target - ((get_target s service_name).1 : Int) < 0) := by
    have : (get_target s service_name).1 = getTargetCount s service_name := rfl
    omega
  constructor
  · intro hfree
    by_cases hd : (0:Int) < target - ((get_target s service_name).1 : Int)
    · obtain ⟨new, heq, hlen, hprops⟩ := launchMany_ok ctl service_name prof hprof
        (target - ((get_target s service_name).1 : Int)).toNat
        (get_target s service_name).2 (by rw [hf]; exact hfree)
      have htry : set_target_try ctl service_name target s =
          (.ok (), pruneVolumes (pruneContainers
            { (get_target s service_name).2 with
              containers := (get_target s service_name).2.containers ++ new
              launchFaults := (get_target s service_name).2.launchFaults.drop
                (target - ((get_target s service_name).1 : Int)).toNat
              launchCount := (get_target s service_name).2.launchCount +
                (target - ((get_target s service_name).1 : Int)).toNat })) := by
        simp only [set_target_try]
        rw [if_neg hnotneg, if_pos hd, heq]
      have hst : set_target ctl service_name target s =
          (.ok (), pruneVolumes (pruneContainers
            { (get_target s service_name).2 with
              containers := (get_target s service_name).2.containers ++ new
              launchFaults := (get_target s service_name).2.launchFaults.drop
                (target - ((get_target s service_name).1 : Int)).toNat
              launchCount := (get_target s service_name).2.launchCount +
                (target - ((get_target s service_name).1 : Int)).toNat })) := by
        unfold set_target
        rw [htry]
      refine ⟨_, new, hst, hlen, ?_, hprops, ?_, ?_⟩
      · rw [hlc]; rfl
      · rw [hc]; rfl
      · intro c hcm hlive
        have hkeep : (!isStoppedStatus c.status) = true := by
          rw [live_not_stopped hlive]; rfl
        have : c ∈ (s.containers ++ new) := List.mem_append_left _ hcm
        show c ∈ (pruneVolumes (pruneContainers _)).containers
        rw [(prune_fields _).1]
        simp only [hc]
        exact List.mem_filter.mpr ⟨this, hkeep⟩
    · have hzero : target - ((get_target s service_name).1 : Int) = 0 := by omega
      have hzero2 : target - ((getTargetCount s service_name : Nat) : Int) = 0 := hzero
      have htry : set_target_try ctl service_name target s =
          (.ok (), pruneVolumes (pruneContainers (get_target s service_name).2)) := by
        simp only [set_target_try]
        rw [if_neg hnotneg, if_neg hd]
      have hst : set_target ctl service_name target s =
          (.ok (), pruneVolumes (pruneContainers (get_target s service_name).2)) := by
        unfold set_target
        rw [htry]
      refine ⟨_, [], hst, by rw [hzero2]; rfl, ?_, by simp, ?_, ?_⟩
      · rw [(prune_fields _).2.1, hlc, hzero2]
        rfl
      · rw [(prune_fields _).1, hc, List.append_nil]
      · intro c hcm hlive
        have hkeep : (!isStoppedStatus c.status) = true := by
          rw [live_not_stopped hlive]; rfl
        rw [(prune_fields _).1, hc]
        exact List.mem_filter.mpr ⟨hcm, hkeep⟩
  · intro jf hjf hfreejf hget
    have hd : (0:Int) < target - ((get_target s service_name).1 : Int) := by
      have : (get_target s service_name).1 = getTargetCount s service_name := rfl
      omega
    obtain ⟨new, heq, hlen, hprops⟩ := launchMany_fault ctl service_name prof hprof jf
      (target - ((get_target s service_name).1 : Int)).toNat
      (get_target s service_name).2 hjf (by rw [hf]; exact hfreejf) (by rw [hf]; exact hget)
    have htry : set_target_try ctl service_name target s =
        (.error (.apiError "docker APIError"),
          { (get_target s service_name).2 with
            containers := (get_target s service_name).2.containers ++ new
            launchFaults := (get_target s service_name).2.launchFaults.drop (jf + 1)
            launchCount := (get_target s service_name).2.launchCount + (jf + 1) }) := by
      simp only [set_target_try]
      rw [if_neg hnotneg, if_pos hd, heq]
    have hst : set_target ctl service_name target s =
        (.error ⟨"docker APIError", service_name⟩,
          { (get_target s service_name).2 with
            containers := (get_target s service_name).2.containers ++ new
            launchFaults := (get_target s service_name).2.launchFaults.drop (jf + 1)
            launchCount := (get_target s service_name).2.launchCount + (jf + 1) }) := by
      unfold set_target
      rw [htry]
      rfl
    refine ⟨_, new, hst, hlen, ?_, hprops, ?_, ?_, ?_⟩
    · rw [show ({ (get_target s service_name).2 with
          containers := (get_target s service_name).2.containers ++ new
          launchFaults := (get_target s service_name).2.launchFaults.drop (jf + 1)
          launchCount := (get_target s service_name).2.launchCount +
            (jf + 1) } : DockerState).launchCount =
          (get_target s service_name).2.launchCount + (jf + 1) from rfl, hlc]
    · rw [show ({ (get_target s service_name).2 with
          containers := (get_target s service_name).2.containers ++ new
          launchFaults := (get_target s service_name).2.launchFaults.drop (jf + 1)
          launchCount := (get_target s service_name).2.launchCount +
            (jf + 1) } : DockerState).containers =
          (get_target s service_name).2.containers ++ new from rfl, hc]
    · rw [show ({ (get_target s service_name).2 with
          containers := (get_target s service_name).2.containers ++ new
          launchFaults := (get_target s service_name).2.launchFaults.drop (jf + 1)
          launchCount := (get_target s service_name).2.launchCount +
            (jf + 1) } : DockerState).pruneCount =
          (get_target s service_name).2.pruneCount from rfl, hpc]
    · intro c hcm
      show c ∈ (get_target s service_name).2.containers ++ new
      rw [hc]
      exact List.mem_append_left _ hcm

theorem filter_live_kill (victims : List String) (service_name : String) :
    ∀ l : List Container,
    ((l.map (fun c => if c.name ∈ victims then { c with status := "exited" } else c)).filter
        (fun c => c.component == service_name)).filter (fun c => isLiveStatus c.status) =
      ((l.filter (fun c => c.component == service_name)).filter
        (fun c => isLiveStatus c.status)).filter
        (fun c => !decide (c.name ∈ victims)) := by
  intro l
  induction l with
  | nil => rfl
  | cons c t ih =>
    simp only [List.map_cons]
    by_cases hv : c.name ∈ victims
    · rw [if_pos hv]
      by_cases hcomp : (c.component == service_name) = true
      · rw [List.filter_cons, List.filter_cons]
        simp only [hcomp, if_true]
        rw [List.filter_cons, List.filter_cons]
        have hdead : isLiveStatus "exited" = false := rfl
        simp only [hdead, Bool.false_eq_true, if_false]
        by_cases hlive : isLiveStatus c.status = true
        · simp only [hlive, if_true, List.filter_cons]
          simp only [hv, decide_True, Bool.not_true, Bool.false_eq_true, if_false]
          exact ih
        · simp only [Bool.not_eq_true] at hlive
          simp only [hlive, Bool.false_eq_true, if_false]
          exact ih
      · simp only [Bool.not_eq_true] at hcomp
        rw [List.filter_cons, List.filter_cons]
        simp only [hcomp, Bool.false_eq_true, if_false]
        exact ih
    · rw [if_neg hv]
      by_cases hcomp : (c.component == service_name) = true
      · rw [List.filter_cons, List.filter_cons]
        simp only [hcomp, if_true]
        rw [List.filter_cons, List.filter_cons]
        by_cases hlive : isLiveStatus c.status = true
        · simp only [hlive, if_true, List.filter_cons]
          simp only [hv, decide_False, Bool.not_false, if_true]
          rw [ih]
        · simp only [Bool.not_eq_true] at hlive
          simp only [hlive, Bool.false_eq_true, if_false]
          exact ih
      · simp only [Bool.not_eq_true] at hcomp
        rw [List.filter_cons, List.filter_cons]
        simp only [hcomp, Bool.false_eq_true, if_false]
        exact ih

theorem filter_not_mem_take_names : ∀ (l : List Container) (k : Nat),
    (l.map (fun c => c.name)).Nodup →
    l.filter (fun c => !decide (c.name ∈ (l.take k).map (fun c => c.name))) = l.drop k := by
  intro l
  induction l with
  | nil => intro k _; simp
  | cons c t ih =>
    intro k hnd
    cases k with
    | zero => simp
    | succ k =>
      rw [List.take_succ_cons, List.map_cons, List.drop_succ_cons]
      rw [List.filter_cons]
      have hcself : c.name ∈ c.name :: (t.take k).map (fun c => c.name) :=
        List.mem_cons_self _ _
      simp only [hcself, decide_True, Bool.not_true, Bool.false_eq_true, if_false]
      obtain ⟨hne, htl⟩ : (∀ x ∈ t, ¬ x.name = c.name) ∧
          (t.map (fun c => c.name)).Nodup := by simpa using hnd
      have hcongr : ∀ x ∈ t,
          (!decide (x.name ∈ c.name :: (t.take k).map (fun c => c.name))) =
          (!decide (x.name ∈ (t.take k).map (fun c => c.name))) := by
        intro x hx
        have hiff : (x.name ∈ c.name :: (t.take k).map (fun c => c.name)) ↔
            (x.name ∈ (t.take k).map (fun c => c.name)) := by
          rw [List.mem_cons]
          constructor
          · rintro (h | h)
            · exact absurd h (hne x hx)
            · exact h
          · exact Or.inr
        simp only [hiff]
      rw [List.filter_congr hcongr]
      exact ih k htl

theorem filter_live_prune (service_name : String) : ∀ l : List Container,
    ((l.filter (fun c => !isStoppedStatus c.status)).filter
        (fun c => c.component == service_name)).filter (fun c => isLiveStatus c.status) =
      (l.filter (fun c => c.component == service_name)).filter
        (fun c => isLiveStatus c.status) := by
  intro l
  simp only [List.filter_filter]
  apply List.filter_congr
  intro c _
  by_cases hlive : isLiveStatus c.status = true
  · have hkeep : isStoppedStatus c.status = false := live_not_stopped hlive
    simp [hlive, hkeep]
  · have hlive2 : isLiveStatus c.status = false := by
      cases h : isLiveStatus c.status
      · rfl
      · exact absurd h hlive
    simp [hlive2]

theorem getTargetCount_eq_live_length (s : DockerState) (service_name : String) :
    getTargetCount s service_name = (liveByLabel s service_name).length := by
  unfold getTargetCount get_target liveByLabel
  rw [getTargetLoop_spec]
  simp [List.countP_eq_length_filter]

/-- Core of the scale-down path: when target < live count, `set_target`
kills the first (live - target) containers of the live listing, prunes,
and succeeds; the surviving live containers are exactly the tail of the
original live listing. -/
theorem scale_down_core (ctl : DockerController) (service_name : String) (target : Int)
    (s : DockerState)
    (hnames : (s.containers.map (fun c => c.name)).Nodup)
    (hneg : target < (getTargetCount s service_name : Int)) :
    ∃ s1, set_target ctl service_name target s = (.ok (), s1) ∧
      liveByLabel s1 service_name =
        (liveByLabel s service_name).drop
          ((getTargetCount s service_name : Int) - target).toNat ∧
      s1.launchCount = s.launchCount ∧
      s1.pruneCount = s.pruneCount + 1 := by
  obtain ⟨hc, hf, hlc, hlpc, hvc⟩ := get_target_snd_fields s service_name
  have hdelta : target - ((get_target s service_name).1 : Int) < 0 := by
    have h0 : (get_target s service_name).1 = getTargetCount s service_name := rfl
    omega
  have hnotpos : ¬ ((0:Int) < target - ((get_target s service_name).1 : Int)) := by omega
  have htry : set_target_try ctl service_name target s =
      (.ok (), pruneVolumes (pruneContainers
        (killByNames
          (((liveByLabel (get_target s service_name).2 service_name).take
            (-(target - ((get_target s service_name).1 : Int))).toNat).map (fun c => c.name))
          (get_target s service_name).2))) := by
    simp only [set_target_try]
    rw [if_pos hdelta, if_neg hnotpos]
  have hst : set_target ctl service_name target s =
      (.ok (), pruneVolumes (pruneContainers
        (killByNames
          (((liveByLabel (get_target s service_name).2 service_name).take
            (-(target - ((get_target s service_name).1 : Int))).toNat).map (fun c => c.name))
          (get_target s service_name).2))) := by
    unfold set_target
    rw [htry]
  have hliveg : liveByLabel (get_target s service_name).2 service_name =
      liveByLabel s service_name := by
    unfold liveByLabel listByLabel
    rw [hc]
  have hk : (-(target - ((get_target s service_name).1 : Int))).toNat =
      ((getTargetCount s service_name : Int) - target).toNat := by
    have h0 : (get_target s service_name).1 = getTargetCount s service_name := rfl
    omega
  set V : List String := ((liveByLabel (get_target s service_name).2 service_name).take
    (-(target - ((get_target s service_name).1 : Int))).toNat).map (fun c => c.name) with hV
  refine ⟨_, hst, ?_, ?_, ?_⟩
  · have hsub : ((liveByLabel s service_name).map (fun c => c.name)).Nodup := by
      apply List.Nodup.sublist _ hnames
      apply List.Sublist.map
      exact List.Sublist.trans (List.filter_sublist _) (List.filter_sublist _)
    have step1 : liveByLabel (pruneVolumes (pruneContainers
        (killByNames V (get_target s service_name).2))) service_name =
        ((((get_target s service_name).2.containers.map
            (fun c => if c.name ∈ V then { c with status := "exited" } else c)).filter
          (fun c => !isStoppedStatus c.status)).filter
          (fun c => c.component == service_name)).filter
          (fun c => isLiveStatus c.status) := rfl
    rw [step1, filter_live_prune, filter_live_kill]
    show (liveByLabel (get_target s service_name).2 service_name).filter
        (fun c => !decide (c.name ∈ V)) = _
    rw [hliveg, hV, hliveg, hk]
    exact filter_not_mem_take_names (liveByLabel s service_name) _ hsub
  · show (pruneVolumes (pruneContainers _)).launchCount = s.launchCount
    rw [(prune_fields _).2.1]
    exact hlc
  · show (pruneVolumes (pruneContainers _)).pruneCount = s.pruneCount + 1
    rw [(prune_fields _).2.2.2.1]
    show (get_target s service_name).2.pruneCount + 1 = s.pruneCount + 1
    rw [hlpc]

/-- C2: for 0 ≤ target < L live instances, `set_target` forcibly
terminates exactly L - target live instances of the service, launches
nothing, and leaves exactly target of the original live instances still
live; which ones survive is implementation-defined (here: the listing
order's tail). -/
theorem setTarget_scale_down_exact (ctl : DockerController) (service_name : String)
    (target : Int) (s : DockerState)
    (hnames : (s.containers.map (fun c => c.name)).Nodup)
    (h0 : 0 ≤ target) (hlt : target < (getTargetCount s service_name : Int)) :
    ∃ s1, set_target ctl service_name target s = (.ok (), s1) ∧
      liveByLabel s1 service_name =
        (liveByLabel s service_name).drop
          ((getTargetCount s service_name : Int) - target).toNat ∧
      getTargetCount s1 service_name = target.toNat ∧
      (∀ c ∈ liveByLabel s1 service_name, c ∈ liveByLabel s service_name) ∧
      s1.launchCount = s.launchCount := by
  obtain ⟨s1, hst, hlive, hlc, _⟩ := scale_down_core ctl service_name target s hnames hlt
  refine ⟨s1, hst, hlive, ?_, ?_, hlc⟩
  · have hL := getTargetCount_eq_live_length s service_name
    have hL1 := getTargetCount_eq_live_length s1 service_name
    rw [hL1, hlive, List.length_drop]
    omega
  · intro c hcm
    rw [hlive] at hcm
    exact List.mem_of_mem_drop hcm

/-- C10: for any negative target, `set_target` terminates every live
instance of the service (the victim selection is capped at the live
count by the list slice), succeeds, and raises no invalid-target error;
no launch is attempted. -/
theorem setTarget_negative_target (ctl : DockerController) (service_name : String)
    (target : Int) (s : DockerState)
    (hnames : (s.containers.map (fun c => c.name)).Nodup)
    (hneg : target < 0) :
    ∃ s1, set_target ctl service_name target s = (.ok (), s1) ∧
      getTargetCount s1 service_name = 0 ∧
      liveByLabel s1 service_name = [] ∧
      s1.launchCount = s.launchCount := by
  have hlt : target < (getTargetCount s service_name : Int) := by
    have : (0:Int) ≤ (getTargetCount s service_name : Int) := Int.ofNat_nonneg _
    omega
  obtain ⟨s1, hst, hlive, hlc, _⟩ := scale_down_core ctl service_name target s hnames hlt
  have hL := getTargetCount_eq_live_length s service_name
  have hempty : liveByLabel s1 service_name = [] := by
    rw [hlive]
    apply List.drop_eq_nil_of_le
    omega
  refine ⟨s1, hst, ?_, hempty, hlc⟩
  rw [getTargetCount_eq_live_length, hempty]
  rfl

theorem start_preserves (ctl : DockerController) (service_name : String) (s : DockerState) :
    (_start ctl service_name s).2.pruneCount = s.pruneCount ∧
    (_start ctl service_name s).2.volumePruneCount = s.volumePruneCount := by
  unfold _start
  split
  · exact ⟨rfl, rfl⟩
  · split
    · exact ⟨rfl, rfl⟩
    · exact ⟨rfl, rfl⟩

theorem launchMany_preserves (ctl : DockerController) (service_name : String) :
    ∀ (n : Nat) (s : DockerState) (r : Except DockerError Unit) (s1 : DockerState),
    launchMany ctl service_name n s = (r, s1) →
    s1.pruneCount = s.pruneCount ∧ s1.volumePruneCount = s.volumePruneCount := by
  intro n
  induction n with
  | zero =>
    intro s r s1 h
    rw [launchMany] at h
    obtain ⟨-, rfl⟩ : r = .ok () ∧ s = s1 := by
      constructor
      · exact (Prod.mk.injEq _ _ _ _ ▸ h).1.symm
      · exact (Prod.mk.injEq _ _ _ _ ▸ h).2
    exact ⟨rfl, rfl⟩
  | succ n ih =>
    intro s r s1 h
    rw [launchMany] at h
    obtain ⟨hp, hv⟩ := start_preserves ctl service_name s
    cases hs0 : _start ctl service_name s with
    | mk r0 s0 =>
      rw [hs0] at h hp hv
      cases r0 with
      | ok u =>
        have h2 : launchMany ctl service_name n s0 = (r, s1) := h
        obtain ⟨h3, h4⟩ := ih s0 r s1 h2
        exact ⟨by rw [h3]; exact hp, by rw [h4]; exact hv⟩
      | error e =>
        have h2 : ((Except.error e : Except DockerError Unit), s0) = (r, s1) := h
        obtain ⟨-, rfl⟩ : Except.error e = r ∧ s0 = s1 := by
          constructor
          · exact (Prod.mk.injEq _ _ _ _ ▸ h2).1
          · exact (Prod.mk.injEq _ _ _ _ ▸ h2).2
        exact ⟨hp, hv⟩

theorem set_target_try_cases (ctl : DockerController) (service_name : String) (target : Int)
    (s : DockerState) : ∀ (r : Except DockerError Unit) (s1 : DockerState),
    set_target_try ctl service_name target s = (r, s1) →
    (r = .ok () ∧ s1.pruneCount = s.pruneCount + 1 ∧
      s1.volumePruneCount = s.volumePruneCount + 1) ∨
    ((∃ e, r = .error e) ∧ s1.pruneCount = s.pruneCount ∧
      s1.volumePruneCount = s.volumePruneCount) := by
  intro r s1 h
  obtain ⟨hc, hf, hlc, hpc, hvc⟩ := get_target_snd_fields s service_name
  simp only [set_target_try] at h
  have hs2p : (if target - ((get_target s service_name).1 : Int) < 0 then
      killByNames
        (((liveByLabel (get_target s service_name).2 service_name).take
          (-(target - ((get_target s service_name).1 : Int))).toNat).map (fun c => c.name))
        (get_target s service_name).2
    else (get_target s service_name).2).pruneCount = s.pruneCount := by
    split
    · exact hpc
    · exact hpc
  have hs2v : (if target - ((get_target s service_name).1 : Int) < 0 then
      killByNames
        (((liveByLabel (get_target s service_name).2 service_name).take
          (-(target - ((get_target s service_name).1 : Int))).toNat).map (fun c => c.name))
        (get_target s service_name).2
    else (get_target s service_name).2).volumePruneCount = s.volumePruneCount := by
    split
    · exact hvc
    · exact hvc
  by_cases hd : (0:Int) < target - ((get_target s service_name).1 : Int)
  · rw [if_pos hd] at h
    cases hlm : launchMany ctl service_name
        (target - ((get_target s service_name).1 : Int)).toNat
        (if target - ((get_target s service_name).1 : Int) < 0 then
          killByNames
            (((liveByLabel (get_target s service_name).2 service_name).take
              (-(target - ((get_target s service_name).1 : Int))).toNat).map (fun c => c.name))
            (get_target s service_name).2
        else (get_target s service_name).2) with
    | mk r0 s3 =>
      rw [hlm] at h
      obtain ⟨h3, h4⟩ := launchMany_preserves ctl service_name _ _ r0 s3 hlm
      cases r0 with
      | ok u =>
        have h2 : ((Except.ok () : Except DockerError Unit),
            pruneVolumes (pruneContainers s3)) = (r, s1) := h
        obtain ⟨hr, hs⟩ : Except.ok () = r ∧ pruneVolumes (pruneContainers s3) = s1 := by
          constructor
          · exact (Prod.mk.injEq _ _ _ _ ▸ h2).1
          · exact (Prod.mk.injEq _ _ _ _ ▸ h2).2
        left
        refine ⟨hr.symm, ?_, ?_⟩
        · rw [← hs, (prune_fields _).2.2.2.1, h3, hs2p]
        · rw [← hs, (prune_fields _).2.2.2.2.1, h4, hs2v]
      | error e =>
        have h2 : ((Except.error e : Except DockerError Unit), s3) = (r, s1) := h
        obtain ⟨hr, hs⟩ : Except.error e = r ∧ s3 = s1 := by
          constructor
          · exact (Prod.mk.injEq _ _ _ _ ▸ h2).1
          · exact (Prod.mk.injEq _ _ _ _ ▸ h2).2
        right
        refine ⟨⟨e, hr.symm⟩, ?_, ?_⟩
        · rw [← hs, h3, hs2p]
        · rw [← hs, h4, hs2v]
  · rw [if_neg hd] at h
    have h2 : ((Except.ok () : Except DockerError Unit),
        pruneVolumes (pruneContainers
          (if target - ((get_target s service_name).1 : Int) < 0 then
            killByNames
              (((liveByLabel (get_target s service_name).2 service_name).take
                (-(target - ((get_target s service_name).1 : Int))).toNat).map
                  (fun c => c.name))
              (get_target s service_name).2
          else (get_target s service_name).2))) = (r, s1) := h
    obtain ⟨hr, hs⟩ : Except.ok () = r ∧ _ = s1 := by
      constructor
      · exact (Prod.mk.injEq _ _ _ _ ▸ h2).1
      · exact (Prod.mk.injEq _ _ _ _ ▸ h2).2
    left
    refine ⟨hr.symm, ?_, ?_⟩
    · rw [← hs, (prune_fields _).2.2.2.1, hs2p]
    · rw [← hs, (prune_fields _).2.2.2.2.1, hs2v]

/-- C4: `set_target` never surfaces anything but `ServiceControlError`:
whenever it returns an error, that error carries the offending service
name and its message is the rendered cause of the error the try-block
raised; successful try-blocks pass through unchanged. -/
theorem setTarget_only_ServiceControlError (ctl : DockerController) (service_name : String)
    (target : Int) (s : DockerState) :
    (∀ (e : ServiceControlError) (s1 : DockerState),
      set_target ctl service_name target s = (.error e, s1) →
      e.service_name = service_name ∧
      ∃ de : DockerError, set_target_try ctl service_name target s = (.error de, s1) ∧
        e.message = errString de) ∧
    (∀ s1 : DockerState, set_target_try ctl service_name target s = (.ok (), s1) →
      set_target ctl service_name target s = (.ok (), s1)) := by
  constructor
  · intro e s1 h
    unfold set_target at h
    cases htry : set_target_try ctl service_name target s with
    | mk r0 s2 =>
      rw [htry] at h
      cases r0 with
      | ok u =>
        cases u
        have h2 : ((Except.ok () : Except ServiceControlError Unit), s2) =
            (Except.error e, s1) := h
        exact absurd (Prod.mk.injEq _ _ _ _ ▸ h2).1 (by simp)
      | error de =>
        have h2 : ((Except.error ⟨errString de, service_name⟩ :
            Except ServiceControlError Unit), s2) = (Except.error e, s1) := h
        obtain ⟨hr, hs⟩ : (Except.error ⟨errString de, service_name⟩ :
            Except ServiceControlError Unit) = Except.error e ∧ s2 = s1 := by
          constructor
          · exact (Prod.mk.injEq _ _ _ _ ▸ h2).1
          · exact (Prod.mk.injEq _ _ _ _ ▸ h2).2
        have he : (⟨errString de, service_name⟩ : ServiceControlError) = e :=
          Except.error.inj hr
        subst he
        subst hs
        exact ⟨rfl, de, rfl, rfl⟩
  · intro s1 h
    unfold set_target
    rw [h]

/-- C7 (amended): cleanup runs exactly on the success path: when
`set_target` returns ok, one container prune and one volume prune were
performed; when any step raises and the call surfaces an error, no prune
was performed (the prune calls sit inside the try-block after the
scaling steps, not in a finally). -/
theorem setTarget_prune_only_on_success (ctl : DockerController) (service_name : String)
    (target : Int) (s : DockerState) :
    (∀ s1 : DockerState, set_target ctl service_name target s = (.ok (), s1) →
      s1.pruneCount = s.pruneCount + 1 ∧ s1.volumePruneCount = s.volumePruneCount + 1) ∧
    (∀ (e : ServiceControlError) (s1 : DockerState),
      set_target ctl service_name target s = (.error e, s1) →
      s1.pruneCount = s.pruneCount ∧ s1.volumePruneCount = s.volumePruneCount) := by
  constructor
  · intro s1 h
    unfold set_target at h
    cases htry : set_target_try ctl service_name target s with
    | mk r0 s2 =>
      rw [htry] at h
      rcases set_target_try_cases ctl service_name target s r0 s2 htry with
        ⟨hok, hp, hv⟩ | ⟨⟨e, herr⟩, hp, hv⟩
      · subst hok
        have h2 : ((Except.ok () : Except ServiceControlError Unit), s2) = (.ok (), s1) := h
        obtain ⟨-, hs⟩ : (Except.ok () : Except ServiceControlError Unit) = .ok () ∧ s2 = s1 := by
          constructor
          · exact (Prod.mk.injEq _ _ _ _ ▸ h2).1
          · exact (Prod.mk.injEq _ _ _ _ ▸ h2).2
        subst hs
        exact ⟨hp, hv⟩
      · subst herr
        have h2 : ((Except.error ⟨errString e, service_name⟩ :
            Except ServiceControlError Unit), s2) = (.ok (), s1) := h
        exact absurd (Prod.mk.injEq _ _ _ _ ▸ h2).1 (by simp)
  · intro e s1 h
    unfold set_target at h
    cases htry : set_target_try ctl service_name target s with
    | mk r0 s2 =>
      rw [htry] at h
      rcases set_target_try_cases ctl service_name target s r0 s2 htry with
        ⟨hok, hp, hv⟩ | ⟨⟨de, herr⟩, hp, hv⟩
      · subst hok
        have h2 : ((Except.ok () : Except ServiceControlError Unit), s2) = (.error e, s1) := h
        exact absurd (Prod.mk.injEq _ _ _ _ ▸ h2).1 (by simp)
      · subst herr
        have h2 : ((Except.error ⟨errString de, service_name⟩ :
            Except ServiceControlError Unit), s2) = (.error e, s1) := h
        obtain ⟨-, hs⟩ : (Except.error ⟨errString de, service_name⟩ :
            Except ServiceControlError Unit) = .error e ∧ s2 = s1 := by
          constructor
          · exact (Prod.mk.injEq _ _ _ _ ▸ h2).1
          · exact (Prod.mk.injEq _ _ _ _ ▸ h2).2
        subst hs
        exact ⟨hp, hv⟩

/-- C6: launching a service with no registered profile fails loudly with
the missing-profile (KeyError) configuration error, raised before any
`containers.run` attempt (no container is created and the launch-attempt
counter does not move), and the error is a distinct constructor from a
runtime-call failure; `set_target` that needs a launch surfaces it as the
`ServiceControlError` wrapping that same missing-profile cause. -/
theorem start_missing_profile (ctl : DockerController) (service_name : String)
    (s : DockerState) (hnone : lookupProfile ctl service_name = none) :
    _start ctl service_name s = (.error (.missingProfile service_name), s) ∧
    (∀ msg : String, (.missingProfile service_name : DockerError) ≠ .apiError msg) ∧
    (∀ target : Int, (getTargetCount s service_name : Int) < target →
      ∃ s1, set_target ctl service_name target s =
          (.error ⟨errString (.missingProfile service_name), service_name⟩, s1) ∧
        s1.containers = s.containers ∧
        s1.launchCount = s.launchCount ∧
        s1.pruneCount = s.pruneCount) := by
  have hs : _start ctl service_name s = (.error (.missingProfile service_name), s) := by
    unfold _start
    rw [hnone]
  refine ⟨hs, by simp, ?_⟩
  intro target htgt
  obtain ⟨hc, hf, hlc, hpc, hvc⟩ := get_target_snd_fields s service_name
  have hdelta : (0:Int) < target - ((get_target s service_name).1 : Int) := by
    have h0 : (get_target s service_name).1 = getTargetCount s service_name := rfl
    omega
  have hnotneg : ¬ (target - ((get_target s service_name).1 : Int) < 0) := by omega
  have hsg : _start ctl service_name (get_target s service_name).2 =
      (.error (.missingProfile service_name), (get_target s service_name).2) := by
    unfold _start
    rw [hnone]
  have hlm : launchMany ctl service_name
      (target - ((get_target s service_name).1 : Int)).toNat
      (get_target s service_name).2 =
      (.error (.missingProfile service_name), (get_target s service_name).2) := by
    obtain ⟨m, hm⟩ : ∃ m, (target - ((get_target s service_name).1 : Int)).toNat = m + 1 :=
      ⟨(target - ((get_target s service_name).1 : Int)).toNat - 1, by omega⟩
    rw [hm, launchMany, hsg]
  have htry : set_target_try ctl service_name target s =
      (.error (.missingProfile service_name), (get_target s service_name).2) := by
    simp only [set_target_try]
    rw [if_neg hnotneg, if_pos hdelta, hlm]
  refine ⟨(get_target s service_name).2, ?_, hc, hlc, hpc⟩
  unfold set_target
  rw [htry]

/-- Fixture: a profile for service "svc" (1 core, 1 MiB). -/
def profSvc : ServiceProfile := ⟨"svc", ⟨"img", none, 1, 1, ["net"], []⟩⟩

/-- Fixture: a controller with the "svc" profile registered. -/
def ctlSvc : DockerController := ⟨"", [], 1, 1, [("svc", profSvc)]⟩

/-- Fixture: a controller with no profiles registered. -/
def ctlNoProf : DockerController := ⟨"", [], 1, 1, []⟩

/-- Fixture: an empty daemon. -/
def sEmpty : DockerState := ⟨[], 8, 0, [], 0, 0, 0, []⟩

/-- Fixture: an empty daemon whose next launch attempt raises. -/
def sFault1 : DockerState := ⟨[], 8, 0, [true], 0, 0, 0, []⟩

/-- Fixture: two live "svc" instances; the first launch succeeds and the
second raises. -/
def sTwoLive : DockerState :=
  ⟨[⟨"svc_0", "svc", "running", 100000, 100000, 1048576⟩,
    ⟨"svc_1", "svc", "running", 100000, 100000, 1048576⟩], 8, 0, [false, true], 0, 0, 0, []⟩

/-- Fixture: four live "svc" instances, fault-free schedule. -/
def sFourLive : DockerState :=
  ⟨[⟨"svc_0", "svc", "running", 100000, 100000, 1048576⟩,
    ⟨"svc_1", "svc", "running", 100000, 100000, 1048576⟩,
    ⟨"svc_2", "svc", "restarting", 100000, 100000, 1048576⟩,
    ⟨"svc_3", "svc", "running", 100000, 100000, 1048576⟩], 8, 0, [], 0, 0, 0, []⟩

/-- C7 counterexample: with a registered profile, no live instance and
target 1, the single launch raises; the call surfaces the wrapped error
and neither a container prune nor a volume prune was performed, refuting
the claim that cleanup runs unconditionally after every call. -/
theorem setTarget_prune_skipped_on_failure :
    (set_target ctlSvc "svc" 1 sFault1).1 = .error ⟨"docker APIError", "svc"⟩ ∧
    sFault1.pruneCount = 0 ∧ sFault1.volumePruneCount = 0 ∧
    (set_target ctlSvc "svc" 1 sFault1).2.pruneCount = 0 ∧
    (set_target ctlSvc "svc" 1 sFault1).2.volumePruneCount = 0 :=
  ⟨rfl, rfl, rfl, rfl, rfl⟩

/-- Witness for C1 at the spec's example: 2 live instances, target 5
(3 launches wanted), fault schedule making the 2nd launch raise. -/
theorem setTarget_scale_up_witness :
    lookupProfile ctlSvc "svc" = some profSvc ∧
    ((getTargetCount sTwoLive "svc" : Int) ≤ 5) ∧
    (((∀ b ∈ sTwoLive.launchFaults.take
          ((5:Int) - (getTargetCount sTwoLive "svc" : Int)).toNat, b = false) →
      ∃ s1 new, set_target ctlSvc "svc" 5 sTwoLive = (.ok (), s1) ∧
        new.length = ((5:Int) - (getTargetCount sTwoLive "svc" : Int)).toNat ∧
        s1.launchCount = sTwoLive.launchCount +
          ((5:Int) - (getTargetCount sTwoLive "svc" : Int)).toNat ∧
        (∀ c ∈ new, c.status = "running" ∧ c.component = "svc") ∧
        s1.containers = (sTwoLive.containers ++ new).filter
          (fun c => !isStoppedStatus c.status) ∧
        (∀ c ∈ sTwoLive.containers, isLiveStatus c.status = true → c ∈ s1.containers)) ∧
    (∀ jf : Nat, jf < ((5:Int) - (getTargetCount sTwoLive "svc" : Int)).toNat →
      (∀ b ∈ sTwoLive.launchFaults.take jf, b = false) →
      sTwoLive.launchFaults.getD jf false = true →
      ∃ s1 new, set_target ctlSvc "svc" 5 sTwoLive =
          (.error ⟨"docker APIError", "svc"⟩, s1) ∧
        new.length = jf ∧
        s1.launchCount = sTwoLive.launchCount + (jf + 1) ∧
        (∀ c ∈ new, c.status = "running" ∧ c.component = "svc") ∧
        s1.containers = sTwoLive.containers ++ new ∧
        s1.pruneCount = sTwoLive.pruneCount ∧
        (∀ c ∈ sTwoLive.containers, c ∈ s1.containers))) :=
  ⟨rfl, by decide, setTarget_scale_up ctlSvc "svc" 5 sTwoLive profSvc rfl (by decide)⟩

/-- Witness for C2 at the spec's example: 4 live instances, target 1,
exactly 3 terminated, exactly 1 of the original 4 still live. -/
theorem setTarget_scale_down_exact_witness :
    (sFourLive.containers.map (fun c => c.name)).Nodup ∧
    ((0:Int) ≤ 1) ∧
    ((1:Int) < (getTargetCount sFourLive "svc" : Int)) ∧
    ∃ s1, set_target ctlSvc "svc" 1 sFourLive = (.ok (), s1) ∧
      liveByLabel s1 "svc" =
        (liveByLabel sFourLive "svc").drop
          ((getTargetCount sFourLive "svc" : Int) - 1).toNat ∧
      getTargetCount s1 "svc" = (1:Int).toNat ∧
      (∀ c ∈ liveByLabel s1 "svc", c ∈ liveByLabel sFourLive "svc") ∧
      s1.launchCount = sFourLive.launchCount :=
  ⟨by decide, by decide, by decide,
    setTarget_scale_down_exact ctlSvc "svc" 1 sFourLive (by decide) (by decide) (by decide)⟩

/-- Witness for C10: target -3 with 4 live instances kills all of them
and succeeds. -/
theorem setTarget_negative_target_witness :
    (sFourLive.containers.map (fun c => c.name)).Nodup ∧
    ((-3:Int) < 0) ∧
    ∃ s1, set_target ctlSvc "svc" (-3) sFourLive = (.ok (), s1) ∧
      getTargetCount s1 "svc" = 0 ∧
      liveByLabel s1 "svc" = [] ∧
      s1.launchCount = sFourLive.launchCount :=
  ⟨by decide, by decide,
    setTarget_negative_target ctlSvc "svc" (-3) sFourLive (by decide) (by decide)⟩

/-- Witness for C4: the failing launch at `sFault1` produces exactly the
wrapped `ServiceControlError` carrying the service name and cause. -/
theorem setTarget_only_ServiceControlError_witness :
    (⟨"docker APIError", "svc"⟩ : ServiceControlError).service_name = "svc" ∧
    ∃ de : DockerError, set_target_try ctlSvc "svc" 1 sFault1 =
        (.error de, ⟨[], 8, 0, [], 1, 0, 0, []⟩) ∧
      (⟨"docker APIError", "svc"⟩ : ServiceControlError).message = errString de :=
  (setTarget_only_ServiceControlError ctlSvc "svc" 1 sFault1).1
    ⟨"docker APIError", "svc"⟩ ⟨[], 8, 0, [], 1, 0, 0, []⟩ rfl

/-- Witness for C6: a controller with no profiles fails the launch with
the missing-profile error and an untouched daemon. -/
theorem start_missing_profile_witness :
    lookupProfile ctlNoProf "svc" = none ∧
    (_start ctlNoProf "svc" sEmpty = (.error (.missingProfile "svc"), sEmpty) ∧
    (∀ msg : String, (.missingProfile "svc" : DockerError) ≠ .apiError msg) ∧
    (∀ target : Int, (getTargetCount sEmpty "svc" : Int) < target →
      ∃ s1, set_target ctlNoProf "svc" target sEmpty =
          (.error ⟨errString (.missingProfile "svc"), "svc"⟩, s1) ∧
        s1.containers = sEmpty.containers ∧
        s1.launchCount = sEmpty.launchCount ∧
        s1.pruneCount = sEmpty.pruneCount)) :=
  ⟨rfl, start_missing_profile ctlNoProf "svc" sEmpty rfl⟩

/-- Witness for C7's amended theorem: on the failing input the error path
leaves both prune counters untouched. -/
theorem setTarget_prune_only_on_success_witness :
    (⟨[], 8, 0, [], 1, 0, 0, []⟩ : DockerState).pruneCount = sFault1.pruneCount ∧
    (⟨[], 8, 0, [], 1, 0, 0, []⟩ : DockerState).volumePruneCount =
      sFault1.volumePruneCount :=
  (setTarget_prune_only_on_success ctlSvc "svc" 1 sFault1).2
    ⟨"docker APIError", "svc"⟩ ⟨[], 8, 0, [], 1, 0, 0, []⟩ rfl
